import Mathlib

/-!
Shallow embedding of `src/main.py` (AI Fitness Coach, a Streamlit app).

The program collects form data into Python dicts, renders f-string prompts,
sends them to a generation service, and stores results in
`st.session_state`.  Python dicts whose keys are read with
`dict.get(key, default)` are modelled with `Option`-valued fields: `none`
models an absent key (so `.get` returns the default), `some v` a present
key (so `.get` returns `v`, even when `v` is empty).  Keys read with
`dict[key]` are modelled as plain fields, since every dict the program
builds contains them.  The remote service and the clock are passed in as
explicit parameters; exceptions of the Python code are modelled as
constructor cases of the service outcome and are absorbed into `Option`
results exactly where the source has `try/except`.
-/

namespace FitnessCoach

/-- Python truthiness of an `Optional[str]`: `None` and `""` are falsy.
Models `if response:` in `generate_training_plan` / `generate_nutrition_plan`. -/
def pyTruthy : Option String → Bool
  | none => false
  | some s => !s.isEmpty

/-- `', '.join(data.get(key, []))` from the prompt builders: the absent key
defaults to the empty list, and the list is comma-joined. -/
def joinGet (l : Option (List String)) : String :=
  String.intercalate ", " (l.getD [])

/-- The dict stored by `show_training_page` in `st.session_state.training_data`
(src/main.py lines 402-422).  Fields read in `create_training_prompt` via
`data.get(...)` are `Option`-valued (see module docstring). -/
structure TrainingData where
  age : Nat
  gender : String
  height : Nat
  weight : Nat
  fitness_level : String
  activity_level : String
  medical_conditions : Option String
  primary_goal : String
  secondary_goals : Option (List String)
  timeline : String
  workout_days : Nat
  time_per_session : String
  workout_location : String
  equipment : Option (List String)
  workout_types : Option (List String)
  workout_time : Option String
  rest_days : Option String
  exercise_experience : Option (List String)
  special_notes : Option String
  deriving DecidableEq, Repr

/-- The dict stored by `show_nutrition_page` in `st.session_state.nutrition_data`
(src/main.py lines 706-730). -/
structure NutritionData where
  age : Nat
  gender : String
  height : Nat
  weight : Nat
  target_weight : Nat
  activity_level : String
  health_conditions : Option String
  primary_goal : String
  timeline : String
  diet_type : String
  food_allergies : Option (List String)
  dislikes : Option (List String)
  preferences : Option (List String)
  meals_per_day : Nat
  cooking_skill : String
  cooking_time : String
  budget : String
  meal_prep : String
  eating_schedule : Option String
  kitchen_equipment : Option (List String)
  shopping_frequency : String
  supplements : Option String
  special_notes : Option String
  deriving DecidableEq, Repr

/-- `create_training_prompt` (src/main.py lines 88-130), the f-string
reproduced character for character with the interpolations made explicit. -/
def create_training_prompt (data : TrainingData) : String :=
  "\nCreate a comprehensive, personalized training plan based on the following information:\n\nPERSONAL DETAILS:\n- Age: "
  ++ toString data.age
  ++ " years\n- Gender: "
  ++ data.gender
  ++ "\n- Height: "
  ++ toString data.height
  ++ " cm\n- Weight: "
  ++ toString data.weight
  ++ " kg\n- Current Fitness Level: "
  ++ data.fitness_level
  ++ "\n- Activity Level: "
  ++ data.activity_level
  ++ "\n- Medical Conditions/Injuries: "
  ++ data.medical_conditions.getD "None"
  ++ "\n\nFITNESS GOALS:\n- Primary Goal: "
  ++ data.primary_goal
  ++ "\n- Secondary Goals: "
  ++ joinGet data.secondary_goals
  ++ "\n- Target Timeline: "
  ++ data.timeline
  ++ "\n\nWORKOUT PREFERENCES:\n- Workout Days per Week: "
  ++ toString data.workout_days
  ++ "\n- Time per Session: "
  ++ data.time_per_session
  ++ " minutes\n- Workout Location: "
  ++ data.workout_location
  ++ "\n- Available Equipment: "
  ++ joinGet data.equipment
  ++ "\n- Preferred Workout Types: "
  ++ joinGet data.workout_types
  ++ "\n- Exercise Experience: "
  ++ joinGet data.exercise_experience
  ++ "\n\nSCHEDULE & PREFERENCES:\n- Preferred Workout Time: "
  ++ data.workout_time.getD "Flexible"
  ++ "\n- Rest Day Preferences: "
  ++ data.rest_days.getD "Flexible"
  ++ "\n\nSPECIAL NOTES: "
  ++ data.special_notes.getD "None"
  ++ "\n\nPlease provide:\n1. Weekly training schedule with specific days\n2. Detailed workout routines for each training day\n3. Warm-up and cool-down recommendations\n4. Exercise descriptions and proper form tips\n5. Progressive overload suggestions\n6. Recovery and rest recommendations\n7. Progress tracking methods\n\nFormat the response in clear sections with headers and detailed exercise instructions.\n"

/-- `create_nutrition_prompt` (src/main.py lines 41-86). -/
def create_nutrition_prompt (data : NutritionData) : String :=
  "\nCreate a comprehensive, personalized nutrition plan based on the following information:\n\nPERSONAL DETAILS:\n- Age: "
  ++ toString data.age
  ++ " years\n- Gender: "
  ++ data.gender
  ++ "\n- Height: "
  ++ toString data.height
  ++ " cm\n- Current Weight: "
  ++ toString data.weight
  ++ " kg\n- Target Weight: "
  ++ toString data.target_weight
  ++ " kg\n- Activity Level: "
  ++ data.activity_level
  ++ "\n- Health Conditions: "
  ++ data.health_conditions.getD "None"
  ++ "\n\nNUTRITION GOALS:\n- Primary Goal: "
  ++ data.primary_goal
  ++ "\n- Timeline: "
  ++ data.timeline
  ++ "\n\nDIETARY PREFERENCES:\n- Diet Type: "
  ++ data.diet_type
  ++ "\n- Food Allergies/Intolerances: "
  ++ joinGet data.food_allergies
  ++ "\n- Foods Disliked: "
  ++ joinGet data.dislikes
  ++ "\n- Food Preferences: "
  ++ joinGet data.preferences
  ++ "\n\nLIFESTYLE FACTORS:\n- Meals per Day: "
  ++ toString data.meals_per_day
  ++ "\n- Cooking Skill: "
  ++ data.cooking_skill
  ++ "\n- Available Cooking Time: "
  ++ data.cooking_time
  ++ "\n- Weekly Budget: "
  ++ data.budget
  ++ "\n- Meal Prep Preference: "
  ++ data.meal_prep
  ++ "\n- Eating Schedule: "
  ++ data.eating_schedule.getD "Flexible"
  ++ "\n- Kitchen Equipment: "
  ++ joinGet data.kitchen_equipment
  ++ "\n- Shopping Frequency: "
  ++ data.shopping_frequency
  ++ "\n- Current Supplements: "
  ++ data.supplements.getD "None"
  ++ "\n\nSPECIAL NOTES: "
  ++ data.special_notes.getD "None"
  ++ "\n\nPlease provide:\n1. Daily calorie target and macronutrient breakdown\n2. Sample meal plan for one day\n3. Weekly meal prep suggestions\n4. Hydration recommendations\n5. Specific tips based on their goals and preferences\n6. Progress tracking suggestions\n\nFormat the response in clear sections with headers and bullet points for easy reading.\n"

/-- Outcome of one call to the remote model
(`self.model.generate_content(prompt)` inside `GeminiClient.generate_content`):
either it returns a response whose `.text` is `text`, or it raises an
exception with message `msg`. -/
inductive ServiceOutcome where
  | success (text : String)
  | exception (msg : String)
  deriving DecidableEq, Repr

/-- The remote service as an oracle: for a prompt and an attempt index, the
outcome of that attempt.  The source makes its attempts in index order
starting at 0. -/
def Service := String → Nat → ServiceOutcome

/-- The `GeminiClient` object: carries the api key passed to `__init__`
(src/main.py lines 14-17); the network behaviour itself is the `Service`
oracle passed to `generate_content`. -/
structure GeminiClient where
  api_key : String
  deriving DecidableEq, Repr

/-- One `st.error(...)` emission, tagged per call site (src/main.py).  The
payload of `errorGeneratingContent` and the two exception messages is the
`str(e)` of the caught exception; `initClientError`'s is likewise `str(e)`. -/
inductive Msg where
  | errorGeneratingContent (e : String)
  | apiKeyNotFound
  | initClientError (e : String)
  | serviceUnavailable
  | noTrainingData
  | noNutritionData
  | kitchenEquipmentRequired
  | failedTrainingPlan
  | failedNutritionPlan
  | trainingPlanException (e : String)
  | nutritionPlanException (e : String)
  deriving DecidableEq, Repr

/-- `GeminiClient.generate_content` (src/main.py lines 19-25):
one call to the service (attempt 0); on success return `response.text`,
on an exception show `st.error(f"Error generating content: {e}")` and
return `None`.  The pair is (returned value, errors shown). -/
def GeminiClient.generate_content (svc : Service) (prompt : String) :
    Option String × List Msg :=
  match svc prompt 0 with
  | .success t => (some t, [])
  | .exception e => (none, [Msg.errorGeneratingContent e])

/-- Outcome of evaluating `st.secrets["GEMINI_API_KEY"]` and constructing
`GeminiClient` in `init_gemini_client` (src/main.py lines 28-38): the key is
present and construction succeeds, or the lookup raises `KeyError`, or some
other exception is raised. -/
inductive InitEnv where
  | keyOk (key : String)
  | keyMissing
  | initFails (msg : String)
  deriving DecidableEq, Repr

/-- `init_gemini_client` (src/main.py lines 28-38): returns the client or
`None`, plus the `st.error` banners shown. -/
def init_gemini_client : InitEnv → Option GeminiClient × List Msg
  | .keyOk k => (some ⟨k⟩, [])
  | .keyMissing => (none, [Msg.apiKeyNotFound])
  | .initFails e => (none, [Msg.initClientError e])

/-- Sidebar API status indicator (src/main.py lines 156-159). -/
def sidebar_status : Option GeminiClient → String
  | some _ => "✅ AI Service Connected"
  | none => "❌ AI Service Unavailable"

/-- The `st.session_state` keys this program reads or writes. -/
structure SessionState where
  gemini_client : Option GeminiClient := none
  training_data : Option TrainingData := none
  nutrition_data : Option NutritionData := none
  generated_training_plan : Option String := none
  generated_nutrition_plan : Option String := none
  deriving DecidableEq, Repr

/-- The ambient clock, as the two formatted strings the source derives from
`datetime.datetime.now()`: `strftime('%Y-%m-%d %H:%M:%S')` and
`strftime('%Y%m%d')` (src/main.py lines 467, 478, 775, 786). -/
structure Clock where
  nowStr : String
  dateStr : String
  deriving DecidableEq, Repr

/-- The download artifact `plan_text` (src/main.py lines 465-473 and
773-781): the f-string after `.strip()`, which removes the leading newline
and the trailing newline-plus-indentation, both adjacent to fixed non-blank
text. -/
def plan_text (title : String) (clock : Clock) (response : String) : String :=
  title ++ "\nGenerated on: " ++ clock.nowStr ++ "\n\n" ++ response
    ++ "\n\n---\nGenerated by AI Fitness Coach"

/-- Observable result of one generation action: the session state after it,
the `st.error` messages shown, the prompt sent to the service (`none` when no
service call was made), the download artifact offered (filename, contents),
and whether the page rendered its form. -/
structure RunResult where
  state : SessionState
  errors : List Msg
  promptSent : Option String
  download : Option (String × String)
  formRendered : Bool
  deriving DecidableEq, Repr

/-- `generate_training_plan` (src/main.py lines 427-500).  Requires
`training_data` in the session; builds the prompt, calls
`generate_content`, and on a truthy response stores it in
`generated_training_plan` and offers the download; on a falsy response
(`None` or `""`) shows the failure error and leaves the state unchanged.
The page only calls it with a client present, so the client field is read
as given. -/
def generate_training_plan (svc : Service) (clock : Clock)
    (st : SessionState) : RunResult :=
  match st.training_data with
  | none => ⟨st, [Msg.noTrainingData], none, none, true⟩
  | some data =>
    let prompt := create_training_prompt data
    let r := GeminiClient.generate_content svc prompt
    if pyTruthy r.1 then
      let t := r.1.getD ""
      ⟨{ st with generated_training_plan := some t }, r.2, some prompt,
        some ("training_plan_" ++ clock.dateStr ++ ".txt",
              plan_text "PERSONALIZED TRAINING PLAN" clock t), true⟩
    else
      ⟨st, r.2 ++ [Msg.failedTrainingPlan], some prompt, none, true⟩

/-- `generate_nutrition_plan` (src/main.py lines 735-808), same shape. -/
def generate_nutrition_plan (svc : Service) (clock : Clock)
    (st : SessionState) : RunResult :=
  match st.nutrition_data with
  | none => ⟨st, [Msg.noNutritionData], none, none, true⟩
  | some data =>
    let prompt := create_nutrition_prompt data
    let r := GeminiClient.generate_content svc prompt
    if pyTruthy r.1 then
      let t := r.1.getD ""
      ⟨{ st with generated_nutrition_plan := some t }, r.2, some prompt,
        some ("nutrition_plan_" ++ clock.dateStr ++ ".txt",
              plan_text "PERSONALIZED NUTRITION PLAN" clock t), true⟩
    else
      ⟨st, r.2 ++ [Msg.failedNutritionPlan], some prompt, none, true⟩

/-- The widget values of the training form at the moment of submission
(src/main.py lines 260-395): every widget always yields a value, so every
field is plain.  Multiselects yield lists (possibly empty), text widgets
yield strings (possibly blank). -/
structure TrainingForm where
  age : Nat
  gender : String
  height : Nat
  weight : Nat
  fitness_level : String
  activity_level : String
  medical_conditions : String
  primary_goal : String
  secondary_goals : List String
  timeline : String
  workout_days : Nat
  time_per_session : String
  workout_location : String
  equipment : List String
  workout_types : List String
  workout_time : String
  rest_days : String
  exercise_experience : List String
  special_notes : String
  deriving DecidableEq, Repr

/-- The dict literal stored by `show_training_page` on submit
(src/main.py lines 402-422): every key is present, hence every optional
field is `some`. -/
def TrainingForm.toData (f : TrainingForm) : TrainingData :=
  { age := f.age, gender := f.gender, height := f.height, weight := f.weight
    fitness_level := f.fitness_level, activity_level := f.activity_level
    medical_conditions := some f.medical_conditions
    primary_goal := f.primary_goal, secondary_goals := some f.secondary_goals
    timeline := f.timeline, workout_days := f.workout_days
    time_per_session := f.time_per_session
    workout_location := f.workout_location, equipment := some f.equipment
    workout_types := some f.workout_types, workout_time := some f.workout_time
    rest_days := some f.rest_days
    exercise_experience := some f.exercise_experience
    special_notes := some f.special_notes }

/-- The widget values of the nutrition form at the moment of submission
(src/main.py lines 511-694). -/
structure NutritionForm where
  age : Nat
  gender : String
  height : Nat
  weight : Nat
  target_weight : Nat
  activity_level : String
  health_conditions : String
  primary_goal : String
  timeline : String
  diet_type : String
  food_allergies : List String
  dislikes : List String
  preferences : List String
  meals_per_day : Nat
  cooking_skill : String
  cooking_time : String
  budget : String
  meal_prep : String
  eating_schedule : String
  kitchen_equipment : List String
  shopping_frequency : String
  supplements : String
  special_notes : String
  deriving DecidableEq, Repr

/-- The dict literal stored by `show_nutrition_page` on submit
(src/main.py lines 706-730). -/
def NutritionForm.toData (f : NutritionForm) : NutritionData :=
  { age := f.age, gender := f.gender, height := f.height, weight := f.weight
    target_weight := f.target_weight, activity_level := f.activity_level
    health_conditions := some f.health_conditions
    primary_goal := f.primary_goal, timeline := f.timeline
    diet_type := f.diet_type, food_allergies := some f.food_allergies
    dislikes := some f.dislikes, preferences := some f.preferences
    meals_per_day := f.meals_per_day, cooking_skill := f.cooking_skill
    cooking_time := f.cooking_time, budget := f.budget
    meal_prep := f.meal_prep, eating_schedule := some f.eating_schedule
    kitchen_equipment := some f.kitchen_equipment
    shopping_frequency := f.shopping_frequency
    supplements := some f.supplements, special_notes := some f.special_notes }

/-- `show_training_page` restricted to one submit event
(src/main.py lines 251-425): if the client is unavailable the page shows the
error and returns before rendering the form; otherwise a submission stores
the dict in `st.session_state.training_data` unconditionally (no validation)
and calls `generate_training_plan`. -/
def show_training_page_submit (svc : Service) (clock : Clock)
    (st : SessionState) (form : TrainingForm) : RunResult :=
  match st.gemini_client with
  | none => ⟨st, [Msg.serviceUnavailable], none, none, false⟩
  | some _ =>
    generate_training_plan svc clock
      { st with training_data := some form.toData }

/-- `show_nutrition_page` restricted to one submit event
(src/main.py lines 502-733): same guard; on submit the source first checks
`if not kitchen_equipment:` and on an empty selection shows
`st.error("Please select at least one kitchen equipment option.")` and
returns without storing anything or generating. -/
def show_nutrition_page_submit (svc : Service) (clock : Clock)
    (st : SessionState) (form : NutritionForm) : RunResult :=
  match st.gemini_client with
  | none => ⟨st, [Msg.serviceUnavailable], none, none, false⟩
  | some _ =>
    if form.kitchen_equipment.isEmpty then
      ⟨st, [Msg.kitchenEquipmentRequired], none, none, true⟩
    else
      generate_nutrition_plan svc clock
        { st with nutrition_data := some form.toData }

/-- Biological sex category of the BMR formula (spec section 4.5). -/
inductive Sex where
  | male
  | female
  deriving DecidableEq, Repr

/-- Activity level of the TDEE table (spec section 4.5). -/
inductive Activity where
  | sedentary
  | light
  | moderate
  | active
  | veryActive
  deriving DecidableEq, Repr

/-- Modelled from the spec: src/main.py contains no BMR/TDEE calculator
(the spec's section 4.5 describes one that is absent from the source).
Mifflin-St Jeor as the spec writes it: male
`10*weight + 6.25*height - 5*age + 5`, female the same with `- 161`. -/
def bmr (weight height age : ℚ) : Sex → ℚ
  | .male => 10 * weight + 6.25 * height - 5 * age + 5
  | .female => 10 * weight + 6.25 * height - 5 * age - 161

/-- Modelled from the spec: the fixed activity-multiplier table of
section 4.5 (sedentary 1.2, light 1.375, moderate 1.55, active 1.725,
very active 1.9). -/
def activity_multiplier : Activity → ℚ
  | .sedentary => 1.2
  | .light => 1.375
  | .moderate => 1.55
  | .active => 1.725
  | .veryActive => 1.9

/-- Modelled from the spec: TDEE = BMR times the activity multiplier
(section 4.5). -/
def tdee (weight height age : ℚ) (sex : Sex) (a : Activity) : ℚ :=
  bmr weight height age sex * activity_multiplier a

/-- `pat` occurs as a contiguous substring of `s`. -/
def strContains (s pat : String) : Prop :=
  pat.data <:+: s.data

instance (s pat : String) : Decidable (strContains s pat) :=
  inferInstanceAs (Decidable (pat.data <:+: s.data))

/-- A nutrition form submission with every widget at its blank or default
value: all multiselects empty, all text widgets blank, scalars and
selectboxes at the source's defaults (src/main.py lines 511-694). -/
def blankNutritionForm : NutritionForm :=
  { age := 25, gender := "Male", height := 170, weight := 70
    target_weight := 70, activity_level := "Sedentary"
    health_conditions := "", primary_goal := "Weight Loss"
    timeline := "1-2 months", diet_type := "No Specific Diet"
    food_allergies := [], dislikes := [], preferences := []
    meals_per_day := 3, cooking_skill := "Beginner"
    cooking_time := "15 minutes or less", budget := "Under $50"
    meal_prep := "No meal prep", eating_schedule := ""
    kitchen_equipment := [], shopping_frequency := "Daily"
    supplements := "", special_notes := "" }

/-- A training form submission with every multiselect empty and every
text widget blank (src/main.py lines 260-395). -/
def blankTrainingForm : TrainingForm :=
  { age := 25, gender := "Male", height := 170, weight := 70
    fitness_level := "Beginner", activity_level := "Sedentary"
    medical_conditions := "", primary_goal := "Weight Loss"
    secondary_goals := [], timeline := "1-2 months", workout_days := 4
    time_per_session := "15-30", workout_location := "Home"
    equipment := [], workout_types := [], workout_time := "Flexible"
    rest_days := "", exercise_experience := [], special_notes := "" }

/-- The profile dict `blankNutritionForm` would store: every key present,
list values empty, free-text values blank. -/
def blankNutritionData : NutritionData := blankNutritionForm.toData

/-- A fixed clock value for concrete runs. -/
def clock0 : Clock := ⟨"2026-10-12 00:00:00", "20261012"⟩

/-- A second clock value, for checking clock-independence on concrete runs. -/
def clock1 : Clock := ⟨"2027-01-01 12:34:56", "20270101"⟩

/-- Does `pat` occur at the head of `s`? (executable prefix test). -/
def listPrefixB : List Char → List Char → Bool
  | [], _ => true
  | _ :: _, [] => false
  | a :: xs, b :: ys => a == b && listPrefixB xs ys

/-- Does `pat` occur contiguously anywhere in `s`? (executable scan). -/
def listInfixB (pat : List Char) : List Char → Bool
  | [] => listPrefixB pat []
  | c :: rest => listPrefixB pat (c :: rest) || listInfixB pat rest

/-- The string `pat` occurs as a contiguous substring of `s`. -/
def strContainsB (s pat : String) : Bool :=
  listInfixB pat.data s.data

/-- A service that answers every attempt with the completion `t`. -/
def svcOk (t : String) : Service := fun _ _ => ServiceOutcome.success t

/-- A service whose every attempt raises an exception with message `e`. -/
def svcFail (e : String) : Service := fun _ _ => ServiceOutcome.exception e

/-- A service that succeeds on attempt 0 and raises on all later attempts:
distinguishable from `svcOk` only by making a second attempt. -/
def svcOnce (t : String) : Service :=
  fun _ n => if n = 0 then ServiceOutcome.success t else ServiceOutcome.exception "later attempt"

/-- A concrete client, as built by `init_gemini_client` on a present key. -/
def client0 : GeminiClient := ⟨"test-key"⟩

/-- Session state right after a successful client initialization. -/
def st1 : SessionState := { gemini_client := some client0 }

/-- Session state with the client and both profiles already stored. -/
def st2 : SessionState :=
  { gemini_client := some client0
    training_data := some blankTrainingForm.toData
    nutrition_data := some blankNutritionData }

/-- `blankNutritionData` with every `.get`-read key absent instead of
present-but-empty: this is the only situation in which the source's
`data.get(key, default)` fallbacks fire. -/
def absentKeysNutritionData : NutritionData :=
  { blankNutritionData with
    health_conditions := none, supplements := none, special_notes := none
    eating_schedule := none, food_allergies := none, dislikes := none
    preferences := none, kitchen_equipment := none }

/-- The plans currently stored in the session, as a list. -/
def plansStored (st : SessionState) : List String :=
  st.generated_training_plan.toList ++ st.generated_nutrition_plan.toList

/-- C1: prompt building is deterministic.  `create_training_prompt` and
`create_nutrition_prompt` are functions of the profile dict alone, so two
invocations on the same profile yield identical strings; moreover the
prompt a generation run sends to the service is independent of the clock
(the only ambient input the source reads) — no timestamp or other
run-varying data is embedded in the prompt text. -/
theorem prompt_building_deterministic :
    (∀ P : TrainingData, create_training_prompt P = create_training_prompt P)
    ∧ (∀ P : NutritionData, create_nutrition_prompt P = create_nutrition_prompt P)
    ∧ (∀ (svc : Service) (c1 c2 : Clock) (st : SessionState),
        (generate_training_plan svc c1 st).promptSent
          = (generate_training_plan svc c2 st).promptSent)
    ∧ (∀ (svc : Service) (c1 c2 : Clock) (st : SessionState),
        (generate_nutrition_plan svc c1 st).promptSent
          = (generate_nutrition_plan svc c2 st).promptSent) := by
  refine ⟨fun _ => rfl, fun _ => rfl, ?_, ?_⟩
  · intro svc c1 c2 st
    cases h : st.training_data with
    | none => simp [generate_training_plan, h]
    | some d =>
      simp only [generate_training_plan, h]
      split <;> rfl
  · intro svc c1 c2 st
    cases h : st.nutrition_data with
    | none => simp [generate_nutrition_plan, h]
    | some d =>
      simp only [generate_nutrition_plan, h]
      split <;> rfl

set_option maxRecDepth 40000 in
/-- C2 counterexample: for the profile in which every optional key is
present but every list value is empty and every free-text value blank, the
built nutrition prompt contains the fallback literal "None" nowhere at all;
the empty list fields and blank text fields are rendered as empty
interpolations, the label directly followed by the line break. -/
theorem empty_fields_render_without_fallback :
    strContainsB (create_nutrition_prompt blankNutritionData) "None" = false
    ∧ strContainsB (create_nutrition_prompt blankNutritionData)
        "- Food Allergies/Intolerances: \n- Foods Disliked: \n" = true
    ∧ strContainsB (create_nutrition_prompt blankNutritionData)
        "- Health Conditions: \n" = true
    ∧ strContainsB (create_nutrition_prompt blankNutritionData)
        "- Kitchen Equipment: \n" = true := by
  exact ⟨rfl, rfl, rfl, rfl⟩

set_option maxRecDepth 40000 in
/-- C2 amended: the fallback literal "None" is rendered only when a
`.get`-read key is absent from the profile dict, and then only for the
free-text keys whose `.get` default is the string "None"; a list-valued
field that is present but empty (and equally an absent list key, whose
default is the empty list) is comma-joined to the empty string, so its
label is followed by an empty interpolation, never by "None". -/
theorem fallback_literal_only_for_absent_keys :
    joinGet (some []) = ""
    ∧ joinGet none = ""
    ∧ strContainsB (create_nutrition_prompt absentKeysNutritionData)
        "- Health Conditions: None" = true
    ∧ strContainsB (create_nutrition_prompt absentKeysNutritionData)
        "- Current Supplements: None" = true
    ∧ strContainsB (create_nutrition_prompt absentKeysNutritionData)
        "SPECIAL NOTES: None" = true
    ∧ strContainsB (create_nutrition_prompt absentKeysNutritionData)
        "- Food Allergies/Intolerances: \n- Foods Disliked: \n" = true := by
  exact ⟨rfl, rfl, rfl, rfl, rfl, rfl⟩

/-- C3: a nutrition submission whose kitchen-equipment selection is empty is
rejected: the validation error is the only message shown, no prompt is
built, no service call is made, and the session state — in particular
`nutrition_data` — is exactly what it was. -/
theorem nutrition_empty_kitchen_equipment_rejected
    (svc : Service) (clock : Clock) (st : SessionState) (c : GeminiClient)
    (form : NutritionForm)
    (hc : st.gemini_client = some c)
    (hk : form.kitchen_equipment = []) :
    show_nutrition_page_submit svc clock st form
      = ⟨st, [Msg.kitchenEquipmentRequired], none, none, true⟩ := by
  simp [show_nutrition_page_submit, hc, hk]

/-- C3 witness: the hypotheses hold for the blank form on the initialized
session, and the submission is rejected with the state unchanged. -/
theorem nutrition_empty_kitchen_equipment_rejected_witness :
    (st1.gemini_client = some client0
      ∧ blankNutritionForm.kitchen_equipment = [])
    ∧ show_nutrition_page_submit (svcOk "plan") clock0 st1 blankNutritionForm
        = ⟨st1, [Msg.kitchenEquipmentRequired], none, none, true⟩ :=
  ⟨⟨rfl, rfl⟩,
    nutrition_empty_kitchen_equipment_rejected (svcOk "plan") clock0 st1
      client0 blankNutritionForm rfl rfl⟩

/-- C4 counterexample: a service returning the empty completion yields the
success value `some ""` from `generate_content`, with no error message of
any kind — refuting the claimed typed `EmptyResponseError` for empty
completions, and with it the claimed typed error taxonomy. -/
theorem empty_completion_is_success :
    GeminiClient.generate_content (svcOk "") "any prompt" = (some "", []) := rfl

/-- C4 amended: `GeminiClient.generate_content` makes exactly one service
attempt — its result depends only on the outcome of attempt 0 for the given
prompt — and returns an untyped result: on success the completion string,
even when empty, with no error; on any raised exception it absorbs the
exception, shows one error message wrapping the underlying message, and
returns `None`.  No exception propagates past the client (the function is
total), but failures are not distinguished into ConfigurationError,
ServiceError and EmptyResponseError: a missing credential is handled
earlier, in `init_gemini_client`, and an empty completion is a success. -/
theorem generate_content_single_attempt_untyped :
    (∀ (svc svc2 : Service) (p : String), svc p 0 = svc2 p 0 →
      GeminiClient.generate_content svc p = GeminiClient.generate_content svc2 p)
    ∧ (∀ (svc : Service) (p t : String), svc p 0 = .success t →
      GeminiClient.generate_content svc p = (some t, []))
    ∧ (∀ (svc : Service) (p e : String), svc p 0 = .exception e →
      GeminiClient.generate_content svc p = (none, [Msg.errorGeneratingContent e])) := by
  refine ⟨?_, ?_, ?_⟩
  · intro svc svc2 p h
    simp [GeminiClient.generate_content, h]
  · intro svc p t h
    simp [GeminiClient.generate_content, h]
  · intro svc p e h
    simp [GeminiClient.generate_content, h]

/-- C4 witness: `svcOk "ok"` and `svcOnce "ok"` agree on attempt 0, so the
single attempt cannot tell them apart; an exception at attempt 0 produces
the absorbed `None` with the wrapped message. -/
theorem generate_content_single_attempt_untyped_witness :
    ((svcOk "ok") "p" 0 = (svcOnce "ok") "p" 0
      ∧ GeminiClient.generate_content (svcOk "ok") "p"
          = GeminiClient.generate_content (svcOnce "ok") "p")
    ∧ ((svcFail "boom") "p" 0 = ServiceOutcome.exception "boom"
      ∧ GeminiClient.generate_content (svcFail "boom") "p"
          = (none, [Msg.errorGeneratingContent "boom"])) :=
  ⟨⟨rfl, generate_content_single_attempt_untyped.1 (svcOk "ok") (svcOnce "ok")
      "p" rfl⟩,
   ⟨rfl, generate_content_single_attempt_untyped.2.2 (svcFail "boom") "p"
      "boom" rfl⟩⟩

/-- C5: when the generation attempt fails (the service raises, so the
client returns `None`), the run leaves the session state exactly as it was —
the stored profile remains retrievable for a retry and no generated-plan
entry is stored — no download is offered, and only the two error messages
are shown; likewise for the nutrition domain. -/
theorem failed_generation_preserves_state :
    (∀ (svc : Service) (clock : Clock) (st : SessionState) (d : TrainingData)
        (e : String),
      st.training_data = some d →
      svc (create_training_prompt d) 0 = .exception e →
      generate_training_plan svc clock st
        = ⟨st, [Msg.errorGeneratingContent e, Msg.failedTrainingPlan],
            some (create_training_prompt d), none, true⟩)
    ∧ (∀ (svc : Service) (clock : Clock) (st : SessionState) (d : NutritionData)
        (e : String),
      st.nutrition_data = some d →
      svc (create_nutrition_prompt d) 0 = .exception e →
      generate_nutrition_plan svc clock st
        = ⟨st, [Msg.errorGeneratingContent e, Msg.failedNutritionPlan],
            some (create_nutrition_prompt d), none, true⟩) := by
  constructor <;> intro svc clock st d e hd hf <;>
    simp [generate_training_plan, generate_nutrition_plan, hd,
      GeminiClient.generate_content, hf, pyTruthy]

/-- C5 witness: with both profiles stored and a service that raises, the
training run returns the unchanged state and the two error messages. -/
theorem failed_generation_preserves_state_witness :
    (st2.training_data = some blankTrainingForm.toData
      ∧ (svcFail "unavailable") (create_training_prompt blankTrainingForm.toData) 0
          = ServiceOutcome.exception "unavailable")
    ∧ generate_training_plan (svcFail "unavailable") clock0 st2
        = ⟨st2, [Msg.errorGeneratingContent "unavailable", Msg.failedTrainingPlan],
            some (create_training_prompt blankTrainingForm.toData), none, true⟩ :=
  ⟨⟨rfl, rfl⟩,
    failed_generation_preserves_state.1 (svcFail "unavailable") clock0 st2
      blankTrainingForm.toData "unavailable" rfl rfl⟩

/-- C6: a missing or invalid credential is non-fatal: `init_gemini_client`
returns `None` together with the distinguishing banner (key missing or
initialization failure), the sidebar marks the service unavailable, and
with the client `None` both pages show the unavailability error and return
before rendering their forms — no submission, prompt or generation can
occur. -/
theorem missing_credential_nonfatal :
    init_gemini_client .keyMissing = (none, [Msg.apiKeyNotFound])
    ∧ (∀ e, init_gemini_client (.initFails e) = (none, [Msg.initClientError e]))
    ∧ sidebar_status none = "❌ AI Service Unavailable"
    ∧ (∀ (svc : Service) (clock : Clock) (st : SessionState)
        (form : TrainingForm), st.gemini_client = none →
        show_training_page_submit svc clock st form
          = ⟨st, [Msg.serviceUnavailable], none, none, false⟩)
    ∧ (∀ (svc : Service) (clock : Clock) (st : SessionState)
        (form : NutritionForm), st.gemini_client = none →
        show_nutrition_page_submit svc clock st form
          = ⟨st, [Msg.serviceUnavailable], none, none, false⟩) := by
  refine ⟨rfl, fun _ => rfl, rfl, ?_, ?_⟩ <;>
    intro svc clock st form h <;>
    simp [show_training_page_submit, show_nutrition_page_submit, h]

/-- C6 witness: on the fresh session (client `None`), a training submission
is refused with the form unrendered and the state unchanged. -/
theorem missing_credential_nonfatal_witness :
    (({} : SessionState).gemini_client = none)
    ∧ show_training_page_submit (svcOk "x") clock0 {} blankTrainingForm
        = ⟨{}, [Msg.serviceUnavailable], none, none, false⟩ :=
  ⟨rfl, missing_credential_nonfatal.2.2.2.1 (svcOk "x") clock0 {}
    blankTrainingForm rfl⟩

/-- C7 counterexample: the Mifflin-St Jeor formula that the claim itself
states gives 1642.5 at (weight 70, height 170, age 25, male) and 1476.5 for
female — each more than 30 away from the claimed 1673 and 1507, a gap no
rounding convention closes. -/
theorem bmr_spec_sample_values_off :
    bmr 70 170 25 Sex.male = 3285 / 2
    ∧ |bmr 70 170 25 Sex.male - 1673| > 30
    ∧ bmr 70 170 25 Sex.female = 2953 / 2
    ∧ |bmr 70 170 25 Sex.female - 1507| > 30 := by
  norm_num [bmr, abs_of_nonneg, abs_of_nonpos]

/-- C7 amended: the calculator (modelled from the spec; the source contains
none) is the pure Mifflin-St Jeor formula; at (70 kg, 170 cm, 25 years) it
gives 1642.5 for male and 1476.5 for female, and TDEE with the sedentary
multiplier equals exactly 1.2 times the BMR for every input. -/
theorem bmr_tdee_formula :
    (∀ w ht a : ℚ, bmr w ht a Sex.male = 10 * w + 6.25 * ht - 5 * a + 5)
    ∧ (∀ w ht a : ℚ, bmr w ht a Sex.female = 10 * w + 6.25 * ht - 5 * a - 161)
    ∧ bmr 70 170 25 Sex.male = 1642.5
    ∧ bmr 70 170 25 Sex.female = 1476.5
    ∧ (∀ (w ht a : ℚ) (s : Sex),
        tdee w ht a s Activity.sedentary = 1.2 * bmr w ht a s) := by
  refine ⟨fun w ht a => rfl, fun w ht a => rfl,
    by norm_num [bmr], by norm_num [bmr], ?_⟩
  intro w ht a s
  rw [tdee, activity_multiplier, mul_comm]

/-- C8 counterexample: two successful generations in sequence.  After the
first, "Plan A" is the stored plan; the second replaces it, after which
"Plan A" is stored nowhere in the session — the stored result is
overwritten, not appended, so a previously stored entry is removed. -/
theorem generation_overwrites_stored_plan :
    plansStored (show_training_page_submit (svcOk "Plan A") clock0 st1
        blankTrainingForm).state = ["Plan A"]
    ∧ plansStored (show_training_page_submit (svcOk "Plan B") clock0
        (show_training_page_submit (svcOk "Plan A") clock0 st1
          blankTrainingForm).state blankTrainingForm).state = ["Plan B"]
    ∧ "Plan A" ∉ plansStored (show_training_page_submit (svcOk "Plan B")
        clock0 (show_training_page_submit (svcOk "Plan A") clock0 st1
          blankTrainingForm).state blankTrainingForm).state := by
  refine ⟨rfl, rfl, ?_⟩
  decide

/-- C8 amended: storing a generation result is a single-slot overwrite with
an exact frame: on a truthy completion the new session state is the old one
with only that domain's generated-plan slot replaced — the profile pointers
and the other domain's slot are untouched — and whatever was in the slot
before is discarded rather than kept alongside. -/
theorem successful_generation_overwrites_slot :
    (∀ (svc : Service) (clock : Clock) (st : SessionState) (d : TrainingData)
        (t : String),
      st.training_data = some d →
      svc (create_training_prompt d) 0 = .success t →
      t.isEmpty = false →
      (generate_training_plan svc clock st).state
        = { st with generated_training_plan := some t })
    ∧ (∀ (svc : Service) (clock : Clock) (st : SessionState) (d : NutritionData)
        (t : String),
      st.nutrition_data = some d →
      svc (create_nutrition_prompt d) 0 = .success t →
      t.isEmpty = false →
      (generate_nutrition_plan svc clock st).state
        = { st with generated_nutrition_plan := some t }) := by
  constructor <;> intro svc clock st d t hd hs ht <;>
    simp [generate_training_plan, generate_nutrition_plan, hd,
      GeminiClient.generate_content, hs, pyTruthy, ht]

/-- C8 amended witness: replacing an already stored "Plan A" by a freshly
generated "Plan B" yields exactly the single-slot update. -/
theorem successful_generation_overwrites_slot_witness :
    (st2.training_data = some blankTrainingForm.toData
      ∧ (svcOk "Plan B") (create_training_prompt blankTrainingForm.toData) 0
          = ServiceOutcome.success "Plan B"
      ∧ "Plan B".isEmpty = false)
    ∧ (generate_training_plan (svcOk "Plan B") clock0
        { st2 with generated_training_plan := some "Plan A" }).state
        = { st2 with generated_training_plan := some "Plan B" } := by
  have h := successful_generation_overwrites_slot.1 (svcOk "Plan B") clock0
    { st2 with generated_training_plan := some "Plan A" }
    blankTrainingForm.toData "Plan B" rfl rfl rfl
  exact ⟨⟨rfl, rfl, rfl⟩, h⟩

/-- C9: the training form enforces no required field: with the client
present, every submission — including one with every multiselect empty and
every free-text field blank — is accepted: the profile dict is stored in
`training_data`, the prompt is built and the generation call proceeds, and
the validation error message never appears. -/
theorem training_form_never_validates
    (svc : Service) (clock : Clock) (st : SessionState) (c : GeminiClient)
    (form : TrainingForm)
    (hc : st.gemini_client = some c) :
    ((show_training_page_submit svc clock st form).state.training_data
        = some form.toData)
    ∧ (show_training_page_submit svc clock st form).promptSent
        = some (create_training_prompt form.toData)
    ∧ Msg.kitchenEquipmentRequired
        ∉ (show_training_page_submit svc clock st form).errors := by
  cases hsvc : svc (create_training_prompt form.toData) 0 with
  | success t =>
    cases hT : t.isEmpty <;>
      simp [show_training_page_submit, hc, generate_training_plan,
        GeminiClient.generate_content, hsvc, pyTruthy, hT]
  | exception e =>
    simp [show_training_page_submit, hc, generate_training_plan,
      GeminiClient.generate_content, hsvc, pyTruthy]

/-- C9 witness: the all-empty training form on the initialized session is
accepted, stored and sent to generation. -/
theorem training_form_never_validates_witness :
    (st1.gemini_client = some client0)
    ∧ ((show_training_page_submit (svcOk "plan") clock0 st1
          blankTrainingForm).state.training_data
        = some blankTrainingForm.toData)
    ∧ (show_training_page_submit (svcOk "plan") clock0 st1
          blankTrainingForm).promptSent
        = some (create_training_prompt blankTrainingForm.toData) := by
  have h := training_form_never_validates (svcOk "plan") clock0 st1 client0
    blankTrainingForm rfl
  exact ⟨rfl, h.1, h.2.1⟩

/-- C10: an empty completion is returned by the client as a success value —
`None` arises exactly from a raised exception — yet the caller's truthiness
check lumps the empty completion with failure: no plan is stored, the state
is unchanged, and the failed-to-generate message is the only message
shown. -/
theorem empty_completion_treated_as_failure :
    (∀ (svc : Service) (p t : String), svc p 0 = .success t →
      (GeminiClient.generate_content svc p).1 = some t)
    ∧ (∀ (svc : Service) (p : String),
      (GeminiClient.generate_content svc p).1 = none
        ↔ ∃ e, svc p 0 = .exception e)
    ∧ (∀ (svc : Service) (clock : Clock) (st : SessionState) (d : TrainingData),
      st.training_data = some d →
      svc (create_training_prompt d) 0 = .success "" →
      generate_training_plan svc clock st
        = ⟨st, [Msg.failedTrainingPlan],
            some (create_training_prompt d), none, true⟩) := by
  refine ⟨?_, ?_, ?_⟩
  · intro svc p t h
    simp [GeminiClient.generate_content, h]
  · intro svc p
    cases h : svc p 0 with
    | success t => simp [GeminiClient.generate_content, h]
    | exception e => simp [GeminiClient.generate_content, h]
  · intro svc clock st d hd hs
    simp [generate_training_plan, hd, GeminiClient.generate_content, hs,
      pyTruthy, String.isEmpty]

/-- C10 witness: the empty completion on a stored training profile leaves
the state unchanged and shows only the failure message. -/
theorem empty_completion_treated_as_failure_witness :
    ((svcOk "") (create_training_prompt blankTrainingForm.toData) 0
        = ServiceOutcome.success ""
      ∧ st2.training_data = some blankTrainingForm.toData)
    ∧ generate_training_plan (svcOk "") clock0 st2
        = ⟨st2, [Msg.failedTrainingPlan],
            some (create_training_prompt blankTrainingForm.toData), none,
            true⟩ :=
  ⟨⟨rfl, rfl⟩, empty_completion_treated_as_failure.2.2 (svcOk "") clock0 st2
    blankTrainingForm.toData rfl rfl⟩

end FitnessCoach

